import Mathlib

/-!
Verification of the termdash gauge / heatmap / fakewidget behavior described
in the repository specification.  Go source files are shallowly embedded:
machine integers become `Int` (no overflow is reachable at the modelled call
sites), Go `float32` arithmetic is embedded exactly as rationals rounded to a
24-bit significand (round to nearest, ties to even), and fallible methods
return `Except String`.
-/

/-- Embedding of Go `image.Rectangle`: a min/max pair of integer points. -/
structure GRect where
  minX : Int
  minY : Int
  maxX : Int
  maxY : Int
deriving DecidableEq

/-- Go `image.Rectangle.Dx`. -/
def GRect.dx (r : GRect) : Int := r.maxX - r.minX

/-- Go `image.Rectangle.Dy`. -/
def GRect.dy (r : GRect) : Int := r.maxY - r.minY

/-- Go `image.Rectangle.Empty`. -/
def GRect.empty (r : GRect) : Bool := r.minX ≥ r.maxX || r.minY ≥ r.maxY

/-- Go `image.Rect(x0, y0, x1, y1)`: canonicalizes by swapping coordinates
that are out of order. -/
def rectGo (x0 y0 x1 y1 : Int) : GRect :=
  let p := if x0 > x1 then (x1, x0) else (x0, x1)
  let q := if y0 > y1 then (y1, y0) else (y0, y1)
  ⟨p.1, q.1, p.2, q.2⟩

/-- Go `image.Rectangle.In(s)`: reports whether every point of `r` is in `s`. -/
def GRect.inRect (r s : GRect) : Bool :=
  if r.empty then true
  else
    s.minX ≤ r.minX && r.maxX ≤ s.maxX && s.minY ≤ r.minY && r.maxY ≤ s.maxY

/-! ## Exact embedding of Go float32 arithmetic

Go rounds every float32 operation (conversion, division, multiplication) to
the nearest representable value, ties to even.  In the range exercised here
(normal numbers, no overflow) a float32 is exactly `m * 2 ^ (e - 23)` with
`2 ^ 23 ≤ m < 2 ^ 24`, so rounding is embedded exactly on rationals.
Rationals are unnormalized numerator/denominator pairs (`Frac`), so that all
arithmetic is by kernel-reducible `Int`/`Nat` operations. -/

/-- An unnormalized rational: `num / den`.  `den = 0` marks a degenerate
value (Go division by zero produces Inf/NaN, unreachable from validated
gauge states). -/
structure Frac where
  num : Int
  den : Nat
deriving DecidableEq

/-- The rational value of an integer. -/
def Frac.ofInt (n : Int) : Frac := ⟨n, 1⟩

/-- Exact product of rationals. -/
def Frac.mul (a b : Frac) : Frac := ⟨a.num * b.num, a.den * b.den⟩

/-- Exact quotient of rationals. -/
def Frac.div (a b : Frac) : Frac :=
  if b.num < 0 then ⟨-(a.num * (b.den : Int)), a.den * b.num.natAbs⟩
  else ⟨a.num * (b.den : Int), a.den * b.num.natAbs⟩

/-- Number of binary digits of `n` (0 for 0), with structural fuel so that it
reduces in the kernel. -/
def bitLenAux : Nat → Nat → Nat
  | 0, _ => 0
  | fuel + 1, n => if n = 0 then 0 else bitLenAux fuel (n / 2) + 1

/-- Number of binary digits of `n`; `bitLen n - 1 = ⌊log2 n⌋` for `n ≥ 1`. -/
def bitLen (n : Nat) : Nat := bitLenAux n n

/-- `log2floorQ n d` is `⌊log2 (n / d)⌋` for positive naturals `n`, `d`. -/
def log2floorQ (n d : Nat) : Int :=
  let a : Int := (bitLen n : Int) - 1
  let b : Int := (bitLen d : Int) - 1
  let e : Int := a - b
  let ok : Bool :=
    if 0 ≤ e then decide (d * 2 ^ e.toNat ≤ n) else decide (d ≤ n * 2 ^ (-e).toNat)
  if ok then e else e - 1

/-- Round `N / D` to the nearest natural, ties to even. -/
def rne (N D : Nat) : Nat :=
  let q := N / D
  let r := N % D
  if 2 * r < D then q
  else if D < 2 * r then q + 1
  else if q % 2 = 0 then q else q + 1

/-- Round the positive rational `n / d` to the nearest binary float with a
24-bit significand (IEEE-754 binary32 in the normal range). -/
def fl32Pos (n d : Nat) : Frac :=
  let e := log2floorQ n d
  let s : Int := 23 - e
  if 0 ≤ s then
    let m := rne (n * 2 ^ s.toNat) d
    ⟨(m : Int), 2 ^ s.toNat⟩
  else
    let m := rne n (d * 2 ^ (-s).toNat)
    ⟨((m * 2 ^ (-s).toNat : Nat) : Int), 1⟩

/-- Round a rational to the nearest binary32 value (normal range).
Degenerate values (zero denominator) propagate unchanged. -/
def fl32 (q : Frac) : Frac :=
  if q.den = 0 then q
  else if q.num = 0 then ⟨0, 1⟩
  else if 0 < q.num then fl32Pos q.num.toNat q.den
  else
    let p := fl32Pos (-q.num).toNat q.den
    ⟨-p.num, p.den⟩

/-- Go conversion `float32(n)` of an integer. -/
def f32i (n : Int) : Frac := fl32 (Frac.ofInt n)

/-- Go conversion `int(x)` of a float value: truncation toward zero. -/
def truncQ (q : Frac) : Int :=
  if q.den = 0 then 0
  else if 0 ≤ q.num then ((q.num.toNat / q.den : Nat) : Int)
  else -(((-q.num).toNat / q.den : Nat) : Int)

/-! ## The Gauge widget (src/widgets/gauge/gauge.go) -/

/-- Embedding of `linestyle.LineStyle`. -/
inductive LineStyle
  | styleNone
  | light
  | double
  | round
deriving DecidableEq

/-- Embedding of gauge `progressType`. -/
inductive ProgressType
  | percent
  | absolute
deriving DecidableEq

/-- The gauge option record (the fields of `options` that gauge.go reads). -/
structure GaugeOptions where
  border : LineStyle
  threshold : Int
  hideTextProgress : Bool
  textLabel : String
  height : Int
deriving DecidableEq

/-- A gauge `Option` mutates the stored option record, as in
`opt.set(g.opts)`. -/
def GaugeOption : Type := GaugeOptions → GaugeOptions

/-- Apply a list of options in order, as the Go `for _, opt := range opts`
loop does. -/
def applyOpts (o : GaugeOptions) (opts : List GaugeOption) : GaugeOptions :=
  opts.foldl (fun acc f => f acc) o

/-- Embedding of the `Gauge` struct state (the mutex is irrelevant to the
sequential semantics modelled here). -/
structure Gauge where
  pt : ProgressType
  current : Int
  total : Int
  opts : GaugeOptions
deriving DecidableEq

/-- Default options, standing in for `newOptions()`. -/
def defaultGaugeOptions : GaugeOptions :=
  { border := LineStyle.styleNone, threshold := 0, hideTextProgress := false,
    textLabel := "", height := 1 }

/-- The gauge produced by `New()` with no options: Go zero values for `pt`,
`current` and `total`. -/
def gaugeNew : Gauge :=
  { pt := ProgressType.percent, current := 0, total := 0,
    opts := defaultGaugeOptions }

/-- The error message produced by `Gauge.Absolute` validation. -/
def absoluteErrMsg (done total : Int) : String :=
  "invalid progress, done(" ++ toString done ++ ") must be <= total(" ++
    toString total ++
    "), done must be zero or positive and total must be a non-zero positive number"

/-- Embedding of `Gauge.Absolute`: the Go method mutates the receiver and
returns an error; here it returns the error value paired with the state after
the call. -/
def Gauge.absolute (g : Gauge) (done total : Int) (opts : List GaugeOption) :
    Except String Unit × Gauge :=
  if done < 0 ∨ total < 1 ∨ done > total then
    (Except.error (absoluteErrMsg done total), g)
  else
    (Except.ok (),
      { g with opts := applyOpts g.opts opts, pt := ProgressType.absolute,
               current := done, total := total })

/-- The error message produced by `Gauge.Percent` validation. -/
def percentErrMsg (p : Int) : String :=
  "invalid percentage, p(" ++ toString p ++ ") must be 0 <= p <= 100"

/-- Embedding of `Gauge.Percent`. -/
def Gauge.percent (g : Gauge) (p : Int) (opts : List GaugeOption) :
    Except String Unit × Gauge :=
  if p < 0 ∨ p > 100 then
    (Except.error (percentErrMsg p), g)
  else
    (Except.ok (),
      { g with opts := applyOpts g.opts opts, pt := ProgressType.percent,
               current := p, total := 100 })

/-- Embedding of `Gauge.width`: Go computes
`int(float32(ar.Dx()) * (float32(w) / float32(g.total)))` in float32
arithmetic.  Takes `ar.Dx()` directly. -/
def gwidth (dx w total : Int) : Int :=
  let mult : Frac := fl32 (Frac.div (f32i w) (f32i total))
  let width : Frac := fl32 (Frac.mul (f32i dx) mult)
  truncQ width

/-- Embedding of `Gauge.hasBorder`. -/
def Gauge.hasBorder (g : Gauge) : Bool := g.opts.border ≠ LineStyle.styleNone

/-- Modelled from the spec: `area.ExcludeBorder` (private/area is not under
src/) subtracts the 1-cell border frame from an area, yielding the zero area
when the area is too small to hold a border. -/
def excludeBorder (r : GRect) : GRect :=
  if r.dx < 2 ∨ r.dy < 2 then ⟨0, 0, 0, 0⟩
  else rectGo (r.minX + 1) (r.minY + 1) (r.maxX - 1) (r.maxY - 1)

/-- Embedding of `Gauge.usable`: the canvas area, border frame excluded when
a border is configured. -/
def Gauge.usable (g : Gauge) (cvs : GRect) : GRect :=
  if g.hasBorder then excludeBorder cvs else cvs

/-- Embedding of `Gauge.thresholdVisible`. -/
def Gauge.thresholdVisible (g : Gauge) : Bool :=
  g.opts.threshold > 0 && g.opts.threshold < g.total

/-- Embedding of `Gauge.minSize`. -/
def Gauge.minSize (g : Gauge) : Int × Int :=
  let minWidth : Int := 1
  let minHeight : Int := 1
  if g.hasBorder then (minWidth + 2, minHeight + 2) else (minWidth, minHeight)

/-- Embedding of `Gauge.maxSize`. -/
def Gauge.maxSize (g : Gauge) : Int × Int :=
  let maxHeight := g.opts.height
  if g.hasBorder then (0, maxHeight + 2) else (0, maxHeight)

/-- What a successful (non-placeholder) `Gauge.Draw` call draws: whether the
border was drawn, the progress rectangle and whether `draw.Rectangle` was
invoked for it, and whether/where the threshold line was drawn.  Text
rendering (draw/alignfor, not under src/) is not part of any claim's drawn
elements and is elided. -/
structure GaugeDrawn where
  border : Bool
  progress : GRect
  progressFilled : Bool
  thresholdDrawn : Bool
  thresholdX : Int
deriving DecidableEq

/-- Result of `Gauge.Draw`.  `resizeNeeded` is the placeholder state: the
method draws the resize-needed character and returns without any of the
normal drawing, and (modelled from the spec, since `draw.ResizeNeeded` is not
under src/) reports no error for the undersized area. -/
inductive GaugeDrawResult
  | resizeNeeded
  | drawn (d : GaugeDrawn)
deriving DecidableEq

/-- Embedding of `Gauge.Draw` (success path of the drawing primitives). -/
def gaugeDraw (g : Gauge) (cvs : GRect) : GaugeDrawResult :=
  let ms := g.minSize
  let needAr := rectGo 0 0 ms.1 ms.2
  if !(needAr.inRect cvs) then GaugeDrawResult.resizeNeeded
  else
    let usable := g.usable cvs
    let progress :=
      rectGo usable.minX usable.minY
        (usable.minX + gwidth usable.dx g.current g.total) usable.maxY
    GaugeDrawResult.drawn
      { border := g.hasBorder
        progress := progress
        progressFilled := progress.dx > 0
        thresholdDrawn := g.thresholdVisible
        thresholdX := usable.minX + gwidth usable.dx g.opts.threshold g.total }

/-! ## Widget API (widgetapi, terminalapi event types) -/

/-- Embedding of `widgetapi.KeyScope`. -/
inductive KeyScope
  | scopeNone
  | focused
  | global
deriving DecidableEq

/-- Embedding of `widgetapi.MouseScope`. -/
inductive MouseScope
  | scopeNone
  | widget
  | global
deriving DecidableEq

/-- Embedding of `widgetapi.Options`. -/
structure WidgetOptions where
  minimumSize : Int × Int
  maximumSize : Int × Int
  wantKeyboard : KeyScope
  wantMouse : MouseScope
deriving DecidableEq

/-- Embedding of `terminalapi.Keyboard`: `keyboard.Key` is an integer code
(runes, or negative values for special keys). -/
structure KeyboardEvent where
  key : Int
deriving DecidableEq

/-- Embedding of `terminalapi.Mouse`. -/
structure MouseEvent where
  x : Int
  y : Int
  button : Int
deriving DecidableEq

/-- Embedding of `widgetapi.EventMeta`. -/
structure EventMeta where
  focused : Bool
deriving DecidableEq

/-- Embedding of `Gauge.Keyboard`: declines all keyboard input. -/
def Gauge.keyboard (_g : Gauge) (_k : KeyboardEvent) (_m : EventMeta) :
    Except String Unit :=
  Except.error "the Gauge widget doesn't support keyboard events"

/-- Embedding of `Gauge.Mouse`: declines all mouse input. -/
def Gauge.mouse (_g : Gauge) (_m : MouseEvent) (_me : EventMeta) :
    Except String Unit :=
  Except.error "the Gauge widget doesn't support mouse events"

/-- Embedding of `Gauge.Options`. -/
def Gauge.widgetOptions (g : Gauge) : WidgetOptions :=
  { maximumSize := g.maxSize
    minimumSize := g.minSize
    wantKeyboard := KeyScope.scopeNone
    wantMouse := MouseScope.scopeNone }

/-! ## The HeatMap widget (src/unnamed/part_000, package heatmap) -/

/-- The heatmap option record; the concrete fields are immaterial because the
heatmap constructor and mutators reject unconditionally (the options module
is not under src/). -/
structure HeatMapOptions where
  cellWidth : Int
deriving DecidableEq

/-- A heatmap `Option` mutates the option record. -/
def HeatMapOption : Type := HeatMapOptions → HeatMapOptions

/-- Embedding of the `HeatMap` struct state (float64 values as rationals;
they are never read by any method under src/). -/
structure HeatMap where
  values : List (List Frac)
  xLabels : List String
  yLabels : List String
  lastWidth : Int
deriving DecidableEq

/-- Embedding of `heatmap.New`: always `(nil, error)`. -/
def heatmapNew (_opts : List HeatMapOption) : Except String HeatMap :=
  Except.error "not implemented"

/-- Embedding of `HeatMap.Values`: always an error. -/
def HeatMap.valuesSet (_hp : HeatMap) (_xLabels _yLabels : List String)
    (_values : List (List Frac)) (_opts : List HeatMapOption) :
    Except String Unit :=
  Except.error "not implemented"

/-- Embedding of `HeatMap.ValueCapacity`: always zero. -/
def HeatMap.valueCapacity (_hp : HeatMap) : Int := 0

/-- Embedding of `HeatMap.Keyboard`: declines all keyboard input. -/
def HeatMap.keyboard (_k : KeyboardEvent) (_m : EventMeta) :
    Except String Unit :=
  Except.error "the HeatMap widget doesn't support keyboard events"

/-- Embedding of `HeatMap.Mouse`: declines all mouse input. -/
def HeatMap.mouse (_m : MouseEvent) (_me : EventMeta) : Except String Unit :=
  Except.error "the HeatMap widget doesn't support mouse events"

/-! ## Canvas cell buffer -/

/-- A point, as Go `image.Point`. -/
structure CPoint where
  x : Int
  y : Int
deriving DecidableEq

/-- Go `image.Point.In(r)`. -/
def CPoint.inRect (p : CPoint) (r : GRect) : Bool :=
  r.minX ≤ p.x && p.x < r.maxX && r.minY ≤ p.y && p.y < r.maxY

/-- Modelled from the spec: the display width of a rune, 1 or 2 cells (the
runewidth package is not under src/).  Wide characters are the East-Asian
wide/fullwidth ranges. -/
def runeDisplayWidth (c : Char) : Nat :=
  if (0x1100 ≤ c.toNat && c.toNat ≤ 0x115F) ||
     (0x2E80 ≤ c.toNat && c.toNat ≤ 0x9FFF) ||
     (0xAC00 ≤ c.toNat && c.toNat ≤ 0xD7A3) ||
     (0xF900 ≤ c.toNat && c.toNat ≤ 0xFAFF) ||
     (0xFF00 ≤ c.toNat && c.toNat ≤ 0xFF60) then 2
  else 1

/-- Modelled from the spec: the cell-buffer `Canvas` (private/canvas is not
under src/).  It owns a rectangular area and the cells written so far. -/
structure Canvas where
  area : GRect
  cells : List (CPoint × Char)
deriving DecidableEq

/-- Modelled from the spec: `Canvas.SetCell` writes a cell and returns the
display width consumed (1 or 2), or fails if the point is outside the canvas
area. -/
def Canvas.setCell (cv : Canvas) (p : CPoint) (r : Char) :
    Except String (Nat × Canvas) :=
  if p.inRect cv.area then
    Except.ok (runeDisplayWidth r, { cv with cells := (p, r) :: cv.cells })
  else
    Except.error "point outside the canvas area"

/-- A sequence of `SetCell` calls, stopping at the first failure. -/
def Canvas.setCells (cv : Canvas) (l : List (CPoint × Char)) :
    Except String Canvas :=
  match l with
  | [] => Except.ok cv
  | (p, r) :: rest =>
    match cv.setCell p r with
    | Except.error e => Except.error e
    | Except.ok (_, cv2) => cv2.setCells rest

/-! ## The fakewidget Mirror (private/fakewidget)

The Mirror implementation itself is not under src/ (only its test is); it is
modelled from the spec and pinned down by the expectations in
src/private/fakewidget/fakewidget_test.go. -/

/-- The keys exercised by the fakewidget scenarios. -/
inductive FKey
  | keyEnter
  | keyEnd
  | keyEsc
deriving DecidableEq

/-- The display name of a key, as Go `keyboard.Key.String()`. -/
def keyName : FKey → String
  | FKey.keyEnter => "KeyEnter"
  | FKey.keyEnd => "KeyEnd"
  | FKey.keyEsc => "KeyEsc"

/-- Modelled from the spec: the `Mirror` widget state — optional custom
text, and the textual form of the last keyboard and mouse events (Go string
zero values when none was received). -/
structure Mirror where
  text : String := ""
  lastKey : String := ""
  lastMouse : String := ""
deriving DecidableEq

/-- Modelled from the spec: `Mirror.Keyboard` records the last key (with an
`F:` marker when the event was delivered focused); KeyEsc resets the
recorded key and returns an error, per the test expectations. -/
def Mirror.keyboard (mi : Mirror) (k : FKey) (meta : EventMeta) :
    Except String Unit × Mirror :=
  if k = FKey.keyEsc then
    (Except.error "fakewidget received KeyEsc", { mi with lastKey := "" })
  else
    let name := keyName k
    let recorded := if meta.focused then "F:" ++ name else name
    (Except.ok (), { mi with lastKey := recorded })

/-- What a successful Mirror draw puts on its canvas: a 1-cell border around
the whole canvas and a list of texts at local points. -/
structure MirrorCanvas where
  bd : Bool
  texts : List (Int × Int × String)
deriving DecidableEq

/-- A text line inside the usable area: fails (as `draw.Text` without an
overrun mode does) when the text does not fit in `uw` cells. -/
def lineAt (uw y : Int) (t : String) : Except String (List (Int × Int × String)) :=
  if (t.length : Int) ≤ uw then Except.ok [(1, y, t)]
  else Except.error ("the text does not fit: " ++ t)

/-- Modelled from the spec: `Mirror.Draw` draws a border around the whole
canvas (failing on a canvas that cannot hold one), then — one per usable
line, skipping lines that do not exist — the canvas size text, the last
keyboard event, the last mouse event, and a `focus` marker when drawn
focused.  A text that does not fit on its line is an error. -/
def Mirror.draw (mi : Mirror) (w h : Int) (metaFocused : Bool) :
    Except String MirrorCanvas :=
  if w < 2 ∨ h < 2 then Except.error "the canvas is too small to draw a border"
  else
    let uw := w - 2
    let uh := h - 2
    let sizeText := "(" ++ toString w ++ "," ++ toString h ++ ")" ++ mi.text
    let l0 := if uh > 0 then lineAt uw 1 sizeText else Except.ok []
    match l0 with
    | Except.error e => Except.error e
    | Except.ok t0 =>
      let l1 := if mi.lastKey != "" && uh > 1 then lineAt uw 2 mi.lastKey
                else Except.ok []
      match l1 with
      | Except.error e => Except.error e
      | Except.ok t1 =>
        let l2 := if mi.lastMouse != "" && uh > 2 then lineAt uw 3 mi.lastMouse
                  else Except.ok []
        match l2 with
        | Except.error e => Except.error e
        | Except.ok t2 =>
          let l3 := if metaFocused && uh > 3 then lineAt uw 4 "focus"
                    else Except.ok []
          match l3 with
          | Except.error e => Except.error e
          | Except.ok t3 => Except.ok { bd := true, texts := t0 ++ t1 ++ t2 ++ t3 }

/-! ## Concrete states used by witnesses -/

/-- A gauge with a light border and otherwise default state. -/
def gaugeB : Gauge :=
  { gaugeNew with opts := { defaultGaugeOptions with border := LineStyle.light } }

/-- The gauge after `Absolute(7, 10)`. -/
def gaugeA : Gauge :=
  { pt := ProgressType.absolute, current := 7, total := 10,
    opts := defaultGaugeOptions }

/-- What `gaugeA` draws on a 12x1 canvas. -/
def gaugeDrawnA : GaugeDrawn :=
  { border := false, progress := ⟨0, 0, 8, 1⟩, progressFilled := true,
    thresholdDrawn := false, thresholdX := 0 }

/-- A gauge after `Absolute(5, 10)` with a threshold of 5 configured. -/
def gaugeT : Gauge :=
  { pt := ProgressType.absolute, current := 5, total := 10,
    opts := { defaultGaugeOptions with threshold := 5 } }

/-- What `gaugeT` draws on a 10x1 canvas. -/
def gaugeDrawnT : GaugeDrawn :=
  { border := false, progress := ⟨0, 0, 5, 1⟩, progressFilled := true,
    thresholdDrawn := true, thresholdX := 5 }

/-- A fresh 2x2 canvas. -/
def canvasEx : Canvas := { area := ⟨0, 0, 2, 2⟩, cells := [] }

/-! ## Theorems -/

/-- Claim C1: `Gauge.Absolute(done, total, opts...)` returns an error and
leaves the whole gauge state (progress type, current, total, stored options)
unchanged when `done < 0`, `total < 1` or `done > total`; otherwise it
returns nil and the gauge holds progress type absolute, `current = done` and
`total = total` (with the provided options applied over the stored ones). -/
theorem gauge_absolute_spec (g : Gauge) (done total : Int)
    (opts : List GaugeOption) :
    ((done < 0 ∨ total < 1 ∨ done > total) →
      g.absolute done total opts = (Except.error (absoluteErrMsg done total), g)) ∧
    (0 ≤ done → 1 ≤ total → done ≤ total →
      g.absolute done total opts =
        (Except.ok (),
          { pt := ProgressType.absolute, current := done, total := total,
            opts := applyOpts g.opts opts })) := by
  constructor
  · intro h
    simp only [Gauge.absolute, if_pos h]
  · intro h1 h2 h3
    have hn : ¬(done < 0 ∨ total < 1 ∨ done > total) := by omega
    simp only [Gauge.absolute, if_neg hn]

/-- Witness for C1: `Absolute(11, 10)` fails leaving the fresh gauge
unchanged; `Absolute(7, 10)` succeeds and sets the absolute progress. -/
theorem gauge_absolute_spec_w :
    gaugeNew.absolute 11 10 [] = (Except.error (absoluteErrMsg 11 10), gaugeNew) ∧
    gaugeNew.absolute 7 10 [] =
      (Except.ok (),
        { pt := ProgressType.absolute, current := 7, total := 10,
          opts := applyOpts gaugeNew.opts [] }) :=
  ⟨(gauge_absolute_spec gaugeNew 11 10 []).1 (by omega),
   (gauge_absolute_spec gaugeNew 7 10 []).2 (by omega) (by omega) (by omega)⟩

/-- Claim C8: `Gauge.Percent(p, opts...)` returns an error and leaves the
entire gauge state including the stored options unchanged when `p < 0` or
`p > 100`; otherwise it returns nil and sets progress type percent,
`current = p` and `total = 100`. -/
theorem gauge_percent_spec (g : Gauge) (p : Int) (opts : List GaugeOption) :
    ((p < 0 ∨ p > 100) →
      g.percent p opts = (Except.error (percentErrMsg p), g)) ∧
    (0 ≤ p → p ≤ 100 →
      g.percent p opts =
        (Except.ok (),
          { pt := ProgressType.percent, current := p, total := 100,
            opts := applyOpts g.opts opts })) := by
  constructor
  · intro h
    simp only [Gauge.percent, if_pos h]
  · intro h1 h2
    have hn : ¬(p < 0 ∨ p > 100) := by omega
    simp only [Gauge.percent, if_neg hn]

/-- Witness for C8: `Percent(101)` fails leaving the fresh gauge unchanged;
`Percent(42)` succeeds. -/
theorem gauge_percent_spec_w :
    gaugeNew.percent 101 [] = (Except.error (percentErrMsg 101), gaugeNew) ∧
    gaugeNew.percent 42 [] =
      (Except.ok (),
        { pt := ProgressType.percent, current := 42, total := 100,
          opts := applyOpts gaugeNew.opts [] }) :=
  ⟨(gauge_percent_spec gaugeNew 101 []).1 (by omega),
   (gauge_percent_spec gaugeNew 42 []).2 (by omega) (by omega)⟩

/-- Claim C6: for every keyboard and mouse event, `Gauge.Keyboard`,
`Gauge.Mouse`, `HeatMap.Keyboard` and `HeatMap.Mouse` return a non-nil
error, consistent with `Gauge.Options` declaring keyboard scope none and
mouse scope none. -/
theorem widgets_decline_input (g : Gauge) (k : KeyboardEvent) (m : MouseEvent)
    (em : EventMeta) :
    (∃ e, g.keyboard k em = Except.error e) ∧
    (∃ e, g.mouse m em = Except.error e) ∧
    (∃ e, HeatMap.keyboard k em = Except.error e) ∧
    (∃ e, HeatMap.mouse m em = Except.error e) ∧
    g.widgetOptions.wantKeyboard = KeyScope.scopeNone ∧
    g.widgetOptions.wantMouse = MouseScope.scopeNone :=
  ⟨⟨_, rfl⟩, ⟨_, rfl⟩, ⟨_, rfl⟩, ⟨_, rfl⟩, rfl, rfl⟩

/-- Claim C10: for every option list, `heatmap.New` returns a nil widget with
a non-nil error, `HeatMap.Values` errors for all inputs, and
`HeatMap.ValueCapacity` always returns 0. -/
theorem heatmap_unimplemented (opts : List HeatMapOption) (hp : HeatMap)
    (xL yL : List String) (vals : List (List Frac))
    (opts2 : List HeatMapOption) :
    heatmapNew opts = Except.error "not implemented" ∧
    (∃ e, hp.valuesSet xL yL vals opts2 = Except.error e) ∧
    hp.valueCapacity = 0 :=
  ⟨rfl, ⟨_, rfl⟩, rfl⟩

/-- Counterexample to claim C4: per the expectations in
fakewidget_test.go (case "canvas too small to draw a box"), `Mirror.Draw` on
a 1x1 canvas returns a non-nil error and draws nothing, rather than drawing
a resize-needed placeholder without error. -/
theorem mirror_draw_1x1_is_error :
    ({} : Mirror).draw 1 1 false =
      Except.error "the canvas is too small to draw a border" := rfl

/-- Claim C4 (amended): a bordered widget that mirrors its canvas size, drawn
on a 7x3 canvas, produces a 1-cell border and the text "(7,3)" at local
point (1,1); drawn on a 1x1 canvas it draws nothing and its Draw returns a
non-nil error. -/
theorem mirror_draw_spec_amended :
    ({} : Mirror).draw 7 3 false =
      Except.ok { bd := true, texts := [(1, 1, "(7,3)")] } ∧
    (∃ e, ({} : Mirror).draw 1 1 false = Except.error e) :=
  ⟨rfl, ⟨"the canvas is too small to draw a border", rfl⟩⟩

/-- Claim C5: after the Mirror receives KeyEnter then KeyEnd, its next Draw
renders "F:KeyEnd" on the keyboard line when the events were delivered
focused, and plain "KeyEnd" when they were not; both keyboard deliveries
succeed. -/
theorem mirror_keyboard_focus_render :
    ((({} : Mirror).keyboard FKey.keyEnter ⟨true⟩).2.keyboard FKey.keyEnd
        ⟨true⟩).2.draw 10 4 false =
      Except.ok { bd := true, texts := [(1, 1, "(10,4)"), (1, 2, "F:KeyEnd")] } ∧
    ((({} : Mirror).keyboard FKey.keyEnter ⟨false⟩).2.keyboard FKey.keyEnd
        ⟨false⟩).2.draw 8 4 false =
      Except.ok { bd := true, texts := [(1, 1, "(8,4)"), (1, 2, "KeyEnd")] } ∧
    ((({} : Mirror).keyboard FKey.keyEnter ⟨true⟩).1 = Except.ok ()) :=
  ⟨rfl, rfl, rfl⟩

/-- Helper: `fl32Pos` produces a nonnegative numerator. -/
theorem fl32Pos_num_nonneg (n d : Nat) : 0 ≤ (fl32Pos n d).num := by
  simp only [fl32Pos]
  split <;> simp

/-- Helper: rounding preserves nonnegativity of the numerator. -/
theorem fl32_num_nonneg (q : Frac) (h : 0 ≤ q.num) : 0 ≤ (fl32 q).num := by
  unfold fl32
  split
  · exact h
  split
  · simp
  split
  · exact fl32Pos_num_nonneg _ _
  · omega

/-- Helper: `float32` of a nonnegative integer has a nonnegative numerator. -/
theorem f32i_num_nonneg (n : Int) (h : 0 ≤ n) : 0 ≤ (f32i n).num :=
  fl32_num_nonneg (Frac.ofInt n) h

/-- Helper: truncation of a value with nonnegative numerator is nonnegative. -/
theorem truncQ_nonneg (q : Frac) (h : 0 ≤ q.num) : 0 ≤ truncQ q := by
  unfold truncQ
  by_cases hden : q.den = 0
  · rw [if_pos hden]
  · rw [if_neg hden, if_pos h]
    exact Int.natCast_nonneg _

/-- Helper: the gauge width is nonnegative on nonnegative inputs. -/
theorem gwidth_nonneg (dx w t : Int) (h1 : 0 ≤ dx) (h2 : 0 ≤ w) (h3 : 0 ≤ t) :
    0 ≤ gwidth dx w t := by
  unfold gwidth
  apply truncQ_nonneg
  apply fl32_num_nonneg
  unfold Frac.mul
  apply mul_nonneg
  · exact f32i_num_nonneg dx h1
  · apply fl32_num_nonneg
    unfold Frac.div
    have hnum : 0 ≤ (f32i t).num := f32i_num_nonneg t h3
    rw [if_neg (by omega)]
    exact mul_nonneg (f32i_num_nonneg w h2) (Int.natCast_nonneg _)

/-- Helper: `image.Rect` does not swap already-ordered coordinates. -/
theorem rectGo_of_le (x0 y0 x1 y1 : Int) (hx : x0 ≤ x1) (hy : y0 ≤ y1) :
    rectGo x0 y0 x1 y1 = ⟨x0, y0, x1, y1⟩ := by
  unfold rectGo
  rw [if_neg (by omega), if_neg (by omega)]

/-- Helper: excluding a border from a well-formed area leaves a well-formed
area. -/
theorem excludeBorder_canonical (r : GRect) :
    0 ≤ (excludeBorder r).dx ∧
    (excludeBorder r).minY ≤ (excludeBorder r).maxY := by
  unfold excludeBorder
  split
  · exact ⟨by simp [GRect.dx], by simp⟩
  · rename_i hno
    unfold GRect.dx GRect.dy at hno
    rw [rectGo_of_le _ _ _ _ (by omega) (by omega)]
    refine ⟨?_, ?_⟩
    · simp only [GRect.dx]
      omega
    · simp only
      omega

/-- Helper: on a zero-based canvas area the usable area of the gauge is
well-formed: nonnegative width and ordered Y coordinates. -/
theorem usable_canonical (g : Gauge) (w h : Nat) :
    0 ≤ (g.usable ⟨0, 0, (w : Int), (h : Int)⟩).dx ∧
    (g.usable ⟨0, 0, (w : Int), (h : Int)⟩).minY ≤
      (g.usable ⟨0, 0, (w : Int), (h : Int)⟩).maxY := by
  unfold Gauge.usable
  split
  · exact excludeBorder_canonical ⟨0, 0, (w : Int), (h : Int)⟩
  · refine ⟨?_, ?_⟩
    · simp only [GRect.dx]
      omega
    · simp only
      omega

/-- Claim C3: whenever `Gauge.Draw` is called with a canvas smaller than the
gauge's minimum size (1x1 without a border, 3x3 with one), it draws the
resize-needed placeholder and returns without any of the normal drawing (no
border, no progress rectangle, no threshold line, no text); the placeholder
result is not an error. -/
theorem gauge_draw_resize_needed (g : Gauge) (w h : Nat)
    (hs : (w : Int) < (if g.hasBorder then 3 else 1) ∨
          (h : Int) < (if g.hasBorder then 3 else 1)) :
    gaugeDraw g ⟨0, 0, (w : Int), (h : Int)⟩ = GaugeDrawResult.resizeNeeded := by
  have hcond : GRect.inRect (rectGo 0 0 (g.minSize).1 (g.minSize).2)
      ⟨0, 0, (w : Int), (h : Int)⟩ = false := by
    cases hb : g.hasBorder <;>
      simp only [hb, if_true, if_false, Bool.false_eq_true] at hs <;>
      simp only [Gauge.minSize, hb, if_true, if_false, Bool.false_eq_true,
        rectGo, GRect.inRect, GRect.empty] <;>
      simp <;> omega
  simp only [gaugeDraw, hcond, Bool.not_false, if_true]

/-- Witness for C3: a bordered gauge on a 1x1 canvas yields the placeholder. -/
theorem gauge_draw_resize_needed_w :
    gaugeDraw gaugeB ⟨0, 0, (1 : Nat), (1 : Nat)⟩ = GaugeDrawResult.resizeNeeded :=
  gauge_draw_resize_needed gaugeB 1 1 (by decide)

/-- Claim C9: a completed (non-placeholder) `Gauge.Draw` draws the threshold
line if and only if the configured threshold `t` satisfies `0 < t < total`;
a threshold of 0 or one at or above the total is never drawn, regardless of
other options or canvas. -/
theorem gauge_threshold_visible_iff (g : Gauge) (cvs : GRect) (d : GaugeDrawn)
    (hd : gaugeDraw g cvs = GaugeDrawResult.drawn d) :
    d.thresholdDrawn = true ↔
      (0 < g.opts.threshold ∧ g.opts.threshold < g.total) := by
  simp only [gaugeDraw] at hd
  split at hd
  · cases hd
  · injection hd with hd2
    subst hd2
    show g.thresholdVisible = true ↔ _
    simp only [Gauge.thresholdVisible, Bool.and_eq_true, decide_eq_true_eq]

/-- Witness for C9: `gaugeT` (threshold 5, total 10) on a 10x1 canvas draws
the threshold line, and the iff holds at that drawn state. -/
theorem gauge_threshold_visible_iff_w :
    gaugeDraw gaugeT ⟨0, 0, 10, 1⟩ = GaugeDrawResult.drawn gaugeDrawnT ∧
    (gaugeDrawnT.thresholdDrawn = true ↔
      (0 < gaugeT.opts.threshold ∧ gaugeT.opts.threshold < gaugeT.total)) :=
  ⟨by decide, gauge_threshold_visible_iff gaugeT ⟨0, 0, 10, 1⟩ gaugeDrawnT (by decide)⟩

/-- Counterexample to claim C2: with `Absolute(53, 100)` on a usable area
100 cells wide, the float32 computation in `Gauge.width` yields 52 filled
cells, while the exact integer truncation of `100 * 53 / 100` is 53. -/
theorem gauge_width_float_counterexample :
    gwidth 100 53 100 = 52 ∧ (100 * 53 / 100 : Int) = 53 ∧
    gwidth 100 53 100 ≠ 100 * 53 / 100 := by decide

/-- Claim C2 (amended): with `Absolute(7, 10)` on a usable area 12 cells
wide the gauge fills exactly `floor(12 * 7 / 10) = 8` cells; the filled
rectangle always starts at the left edge of the usable area and its width is
`usableWidth * done / total` computed in 32-bit floating point arithmetic
(`gwidth`), which can differ from the exact integer truncation. -/
theorem gauge_fill_width_amended :
    gwidth 12 7 10 = 8 ∧
    gaugeDraw gaugeA ⟨0, 0, 12, 1⟩ = GaugeDrawResult.drawn gaugeDrawnA ∧
    ∀ (g : Gauge) (w h : Nat) (d : GaugeDrawn),
      gaugeDraw g ⟨0, 0, (w : Int), (h : Int)⟩ = GaugeDrawResult.drawn d →
      0 ≤ g.current → g.current ≤ g.total → 1 ≤ g.total →
      d.progress.minX = (g.usable ⟨0, 0, (w : Int), (h : Int)⟩).minX ∧
      d.progress.maxX = (g.usable ⟨0, 0, (w : Int), (h : Int)⟩).minX +
        gwidth (g.usable ⟨0, 0, (w : Int), (h : Int)⟩).dx g.current g.total := by
  refine ⟨by decide, by decide, ?_⟩
  intro g w h d hd h1 h2 h3
  obtain ⟨hdx, hyy⟩ := usable_canonical g w h
  have hW : 0 ≤ gwidth (g.usable ⟨0, 0, (w : Int), (h : Int)⟩).dx
      g.current g.total :=
    gwidth_nonneg _ _ _ hdx h1 (by omega)
  simp only [gaugeDraw] at hd
  split at hd
  · cases hd
  · injection hd with hd2
    subst hd2
    dsimp only
    rw [rectGo_of_le _ _ _ _ (by omega) hyy]
    exact ⟨rfl, rfl⟩

/-- Witness for C2 (amended): the drawn rectangle of `gaugeA` on a 12x1
canvas starts at the usable area's left edge and spans the float32 width. -/
theorem gauge_fill_width_amended_w :
    gaugeDrawnA.progress.minX = (gaugeA.usable ⟨0, 0, 12, 1⟩).minX ∧
    gaugeDrawnA.progress.maxX = (gaugeA.usable ⟨0, 0, 12, 1⟩).minX +
      gwidth (gaugeA.usable ⟨0, 0, 12, 1⟩).dx gaugeA.current gaugeA.total :=
  gauge_fill_width_amended.2.2 gaugeA 12 1 gaugeDrawnA (by decide) (by decide)
    (by decide) (by decide)

/-- Helper for C7: a sequence of in-area `SetCell` calls all succeed. -/
theorem canvas_setCells_ok_aux (A : GRect) (l : List (CPoint × Char)) :
    ∀ cv : Canvas, cv.area = A → (∀ q ∈ l, q.1.inRect A = true) →
      ∃ cv3, cv.setCells l = Except.ok cv3 := by
  induction l with
  | nil => exact fun cv _ _ => ⟨cv, rfl⟩
  | cons q rest ih =>
    intro cv hA hall
    obtain ⟨p, r⟩ := q
    have hp : p.inRect cv.area = true := by
      rw [hA]
      exact hall (p, r) (List.mem_cons_self _ _)
    have hstep : cv.setCells ((p, r) :: rest) =
        ({ cv with cells := (p, r) :: cv.cells } : Canvas).setCells rest := by
      simp only [Canvas.setCells, Canvas.setCell, if_pos hp]
    rw [hstep]
    exact ih _ (by simpa using hA)
      (fun q2 hq2 => hall q2 (List.mem_cons_of_mem _ hq2))

/-- Claim C7: a `SetCell` call at a point inside the canvas area succeeds and
returns the display width consumed (1 or 2); a call at a point outside the
area fails; and every call of a sequence of in-area `SetCell` calls
succeeds. -/
theorem canvas_setCell_spec (cv : Canvas) (p : CPoint) (r : Char)
    (l : List (CPoint × Char)) :
    (p.inRect cv.area = true →
      ∃ cv2, cv.setCell p r = Except.ok (runeDisplayWidth r, cv2) ∧
        (runeDisplayWidth r = 1 ∨ runeDisplayWidth r = 2)) ∧
    (p.inRect cv.area = false →
      ∃ e, cv.setCell p r = Except.error e) ∧
    ((∀ q ∈ l, q.1.inRect cv.area = true) →
      ∃ cv3, cv.setCells l = Except.ok cv3) := by
  refine ⟨?_, ?_, ?_⟩
  · intro hp
    refine ⟨{ cv with cells := (p, r) :: cv.cells }, ?_, ?_⟩
    · simp only [Canvas.setCell, if_pos hp]
    · unfold runeDisplayWidth
      split
      · right; rfl
      · left; rfl
  · intro hp
    refine ⟨"point outside the canvas area", ?_⟩
    simp only [Canvas.setCell, hp, Bool.false_eq_true, if_false]
  · exact canvas_setCells_ok_aux cv.area l cv rfl

/-- Witness for C7: on a fresh 2x2 canvas, `SetCell` at (0,0) succeeds with
width 1 or 2, `SetCell` at (5,0) fails, and a two-call in-area sequence
succeeds. -/
theorem canvas_setCell_spec_w :
    (∃ cv2, canvasEx.setCell ⟨0, 0⟩ 'a' =
        Except.ok (runeDisplayWidth 'a', cv2) ∧
      (runeDisplayWidth 'a' = 1 ∨ runeDisplayWidth 'a' = 2)) ∧
    (∃ e, canvasEx.setCell ⟨5, 0⟩ 'a' = Except.error e) ∧
    (∃ cv3, canvasEx.setCells [(⟨0, 0⟩, 'a'), (⟨1, 1⟩, 'b')] =
        Except.ok cv3) :=
  ⟨(canvas_setCell_spec canvasEx ⟨0, 0⟩ 'a' []).1 (by decide),
   (canvas_setCell_spec canvasEx ⟨5, 0⟩ 'a' []).2.1 (by decide),
   (canvas_setCell_spec canvasEx ⟨0, 0⟩ 'a'
      [(⟨0, 0⟩, 'a'), (⟨1, 1⟩, 'b')]).2.2 (by decide)⟩
